import Mathlib

/-!
Shallow embedding of the PolymarketBTC15mAssistant analysis scripts
(`verify_accuracy.py`, `analyze_new.py`, `analyze_48h.py`, `analyze_24h.py`).

Conventions of the embedding:
* Timestamps are modelled directly as UTC milliseconds since the epoch
  (`Int`), i.e. the value `int(ts.timestamp() * 1000)` that the scripts
  compute from each pandas timestamp.
* Python `%` on integers with a positive modulus agrees with `Int.emod`,
  and Python `//` agrees with `Int.ediv`; those are the operations used.
* Prices parsed with `float(...)` are modelled as rationals; the scripts
  only ever compare them, so the branch structure is preserved exactly.
* Python dictionaries keyed by window start are modelled as association
  lists with an overwriting insert; `dict.get` is `List.lookup`.
* The HTTP call `requests.get(BINANCE_URL, params)` is abstracted as a
  `server` function from the (startTime, endTime) request parameters to
  `Except Unit HttpResponse`: `Except.error` is a raised requests
  exception (transport failure), which no script catches, while a
  returned response carries its status code — the scripts inspect
  `status_code != 200` themselves. Fetchers that can hit an uncaught
  exception return `Except`, with `Except.error` modelling the abort.
-/

/-- Python substring test helper: `charsPre tok hay` is true iff `tok` is an
initial segment of `hay` (character lists). -/
def charsPre : List Char → List Char → Bool
  | [], _ => true
  | _ :: _, [] => false
  | a :: as, b :: bs => a == b && charsPre as bs

/-- Python substring test helper: `charsSub tok hay` is true iff `tok` occurs
as a contiguous segment of `hay`. -/
def charsSub (tok : List Char) : List Char → Bool
  | [] => charsPre tok []
  | c :: rest => charsPre tok (c :: rest) || charsSub tok rest

/-- Python's `tok in s` for strings: substring containment. -/
def strContains (s tok : String) : Bool :=
  charsSub tok.data s.data

/-- One row of the signals CSV, as consumed by the scripts: the
`timestamp` column already converted to UTC milliseconds, the `signal`,
`recommendation` and `regime` strings, and the informational numeric
columns. -/
structure SignalRecord where
  ts : Int
  signal : String
  recommendation : String
  modelUp : ℚ
  modelDown : ℚ
  edgeUp : ℚ
  edgeDown : ℚ
  regime : String
deriving DecidableEq

/-- `get_window_start` (verify_accuracy.py:23-28 and the identical copies):
`ts_ms - (ts_ms % window_size)` with `window_size = 15 * 60 * 1000`. -/
def getWindowStart (tsMs : Int) : Int :=
  tsMs - tsMs % 900000

/-- The actionability test applied to each row inside
`group_signals_by_window`: `'STRONG' in rec or 'GOOD' in rec`. -/
def actionableRec (r : SignalRecord) : Bool :=
  strContains r.recommendation "STRONG" || strContains r.recommendation "GOOD"

/-- One iteration of the row loop of `group_signals_by_window`
(verify_accuracy.py:30-47): an actionable row is appended to the list at
its window start; any other row is dropped on the spot. The accumulated
`defaultdict(list)` is modelled as a total function with default `[]`. -/
def groupStep (m : Int → List SignalRecord) (row : SignalRecord) :
    Int → List SignalRecord :=
  if actionableRec row then
    fun w => if w = getWindowStart row.ts then m w ++ [row] else m w
  else m

/-- `group_signals_by_window(df)` (verify_accuracy.py:30-47, and the
identical loops in analyze_new.py:28-45, analyze_48h.py:27-42,
analyze_24h.py:57-75): fold the row loop over the frame in order. -/
def groupSignalsByWindow (df : List SignalRecord) : Int → List SignalRecord :=
  df.foldl groupStep (fun _ => [])

/-- Count of signals in a window whose `signal` string contains `"UP"`
(the generator expression in analyze_new.py:81). -/
def countUpSignals (l : List SignalRecord) : Nat :=
  l.countP (fun s => strContains s.signal "UP")

/-- Count of signals whose `signal` string contains `"DOWN"`
(the generator expression in analyze_new.py:82). -/
def countDownSignals (l : List SignalRecord) : Nat :=
  l.countP (fun s => strContains s.signal "DOWN")

/-- Count of signals whose `signal` contains `"DOWN"` but not `"UP"` —
this is what the `elif` branch of verify_accuracy.py:83-88 actually
accumulates in `down_count`. -/
def countDownExclSignals (l : List SignalRecord) : Nat :=
  l.countP (fun s => strContains s.signal "DOWN" && !strContains s.signal "UP")

/-- Loop body of `determine_vote` in verify_accuracy.py:83-88: the
`if 'UP' in sig: ... elif 'DOWN' in sig: ...` chain over the running
`(up_count, down_count)` pair. -/
def voteStepVerify (p : Nat × Nat) (s : SignalRecord) : Nat × Nat :=
  if strContains s.signal "UP" then (p.1 + 1, p.2)
  else if strContains s.signal "DOWN" then (p.1, p.2 + 1)
  else p

/-- `determine_vote(signals)` of verify_accuracy.py:78-94 (same code in
analyze_24h.py:115-130): accumulate counts with the if/elif loop, then
compare. -/
def determineVoteVerify (signals : List SignalRecord) : String :=
  let c := signals.foldl voteStepVerify (0, 0)
  if c.1 > c.2 then "UP" else if c.2 > c.1 then "DOWN" else "NEUTRAL"

/-- `determine_vote(signals)` of analyze_new.py:80-88 (same code in
analyze_48h.py:69-74): two independent `sum(1 for s in signals if ...)`
counts, then the same comparison. -/
def determineVoteNew (signals : List SignalRecord) : String :=
  let upCount := countUpSignals signals
  let downCount := countDownSignals signals
  if upCount > downCount then "UP"
  else if downCount > upCount then "DOWN"
  else "NEUTRAL"

/-- Modelled from the spec (§4.3): the majority rule stated over two given
counts — strictly more up than down gives UP, strictly more down gives
DOWN, a tie (including 0-0) gives NEUTRAL. Used as the comparison point
for both `determine_vote` implementations. -/
def specVote (u d : Nat) : String :=
  if u > d then "UP" else if d > u then "DOWN" else "NEUTRAL"

/-- A raw candle row as parsed from one element `k` of the JSON page:
`int(k[0])`, `float(k[1])`, `float(k[4])`. -/
structure RawKline where
  openTime : Int
  openPrice : ℚ
  closePrice : ℚ
deriving DecidableEq

/-- The per-window outcome dictionary value built by the fetchers:
`{'open': ..., 'close': ..., 'result': 'UP' if close > open else 'DOWN'}`. -/
structure Kline where
  openPrice : ℚ
  closePrice : ℚ
  result : String
deriving DecidableEq

/-- Conversion of a parsed candle row into the stored outcome entry
(verify_accuracy.py:66-74, analyze_new.py:68-74, analyze_24h.py:100-109). -/
def klineOfRaw (k : RawKline) : Kline :=
  { openPrice := k.openPrice
    closePrice := k.closePrice
    result := if k.closePrice > k.openPrice then "UP" else "DOWN" }

/-- Overwriting insert into the outcome dictionary
(`all_klines[open_time] = {...}`). -/
def upsertKline (m : List (Int × Kline)) (k : Int) (v : Kline) :
    List (Int × Kline) :=
  m.filter (fun p => p.1 != k) ++ [(k, v)]

/-- The `for k in data:` parsing loop that stores each candle of a page
into the accumulated dictionary. -/
def insertPage (acc : List (Int × Kline)) (data : List RawKline) :
    List (Int × Kline) :=
  data.foldl (fun m k => upsertKline m k.openTime (klineOfRaw k)) acc

/-- Python's `max(all_klines.keys())`; only ever applied to a non-empty
dictionary in the fetch loop (a page was just inserted). -/
def maxKey (m : List (Int × Kline)) : Int :=
  match m with
  | [] => 0
  | p :: ps => ps.foldl (fun a q => max a q.1) p.1

/-- What `requests.get` hands back when it does not raise: the response
object with its status code and (for the scripts' use) the parsed JSON
body. A transport failure — `requests.get` itself raising — is the
`Except.error` of the server function and never produces a response. -/
structure HttpResponse where
  statusCode : Nat
  data : List RawKline
deriving DecidableEq

/-- `fetch_binance_klines` of verify_accuracy.py:49-76: a single request.
A transport failure (raised requests exception) propagates uncaught; a
non-200 response raises `Exception("Error Binance: ...")`; both are
`Except.error`, and the caller `main` has no handler for either. On a
200 response the page is parsed into the outcome dictionary. -/
def fetchBinanceKlinesVerify (server : Int → Int → Except Unit HttpResponse)
    (startTime endTime : Int) : Except Unit (List (Int × Kline)) :=
  match server startTime endTime with
  | Except.error e => Except.error e
  | Except.ok resp =>
    if resp.statusCode ≠ 200 then Except.error ()
    else Except.ok (insertPage [] resp.data)

/-- The `while current_start < end_time:` pagination loop of
`fetch_binance_klines` in analyze_new.py:47-78 (identical in
analyze_48h.py:44-67 and analyze_24h.py:77-113). Each request uses
`startTime = current_start` and
`endTime = min(current_start + 1000 * 15 * 60 * 1000, end_time)`.
A transport failure — `requests.get` raising — propagates out of the
loop uncaught (`Except.error`: nothing in the scripts catches it, so
the run aborts). A non-200 response or an empty page breaks out of the
loop with the partial dictionary; otherwise the page is inserted and the
loop resumes at `max(all_klines.keys()) + 15 * 60 * 1000`. `fuel` bounds
the number of iterations (the Python loop has no such bound; every claim
proved below is about individual iterations or terminating runs).
Alongside the dictionary the model returns the ghost log of
`(startTime, endTime)` request parameter pairs passed to `requests.get`,
used to state the pagination claims. -/
def fetchLoopNew (server : Int → Int → Except Unit HttpResponse)
    (endTime : Int) :
    Nat → Int → List (Int × Kline) → List (Int × Int) →
    Except Unit (List (Int × Kline) × List (Int × Int))
  | 0, _, acc, log => Except.ok (acc, log)
  | fuel + 1, current, acc, log =>
    if current < endTime then
      match server current (min (current + 900000000) endTime) with
      | Except.error e => Except.error e
      | Except.ok resp =>
          if resp.statusCode ≠ 200 then
            Except.ok (acc, log ++ [(current, min (current + 900000000) endTime)])
          else if resp.data.isEmpty then
            Except.ok (acc, log ++ [(current, min (current + 900000000) endTime)])
          else
            fetchLoopNew server endTime fuel
              (maxKey (insertPage acc resp.data) + 900000)
              (insertPage acc resp.data)
              (log ++ [(current, min (current + 900000000) endTime)])
    else Except.ok (acc, log)

/-- `fetch_binance_klines(start_time, end_time)` of analyze_new.py:47-78:
run the pagination loop from `start_time` with an empty dictionary. -/
def fetchBinanceKlinesNew (server : Int → Int → Except Unit HttpResponse)
    (fuel : Nat) (startTime endTime : Int) :
    Except Unit (List (Int × Kline) × List (Int × Int)) :=
  fetchLoopNew server endTime fuel startTime [] []

/-- One entry of `results_detail` (verify_accuracy.py:229-235): the window
time (kept as the window-start instant; the script stores its "%H:%M"
rendering, which is presentation only), the vote, the realized result,
the correctness flag and the number of signals in the window. -/
structure ScoreDetail where
  time : Int
  vote : String
  result : String
  correct : Bool
  numSignals : Nat
deriving DecidableEq

/-- The mutable scoring state of the verification loop of
verify_accuracy.py:206-241: the `correct`, `wrong` and `total` counters
and the chronological `results_detail` list. -/
structure ScoreState where
  correct : Nat
  wrong : Nat
  total : Nat
  details : List ScoreDetail
deriving DecidableEq

/-- One iteration of `for window_start in sorted_windows:` in
verify_accuracy.py:211-241: `klines.get(window_start)` missing skips the
window; a NEUTRAL vote skips the window; otherwise the detail entry is
appended and exactly one of `correct`/`wrong` and the `total` counter are
incremented. The windows are supplied as (window start, signal list)
pairs. -/
def scoreStepVerify (klines : List (Int × Kline)) (st : ScoreState)
    (w : Int × List SignalRecord) : ScoreState :=
  match List.lookup w.1 klines with
  | none => st
  | some kl =>
    if determineVoteVerify w.2 = "NEUTRAL" then st
    else
      { correct :=
          st.correct + (if determineVoteVerify w.2 == kl.result then 1 else 0)
        wrong :=
          st.wrong + (if determineVoteVerify w.2 == kl.result then 0 else 1)
        total := st.total + 1
        details := st.details ++
          [⟨w.1, determineVoteVerify w.2, kl.result,
            determineVoteVerify w.2 == kl.result, w.2.length⟩] }

/-- The whole verification loop of verify_accuracy.py:206-241 starting
from zeroed counters and an empty detail list. -/
def scoreRunVerify (klines : List (Int × Kline))
    (ws : List (Int × List SignalRecord)) : ScoreState :=
  ws.foldl (scoreStepVerify klines) ⟨0, 0, 0, []⟩

/-- The condition under which the loop body of verify_accuracy.py:211-241
actually scores a window: its outcome is present in the fetched
dictionary and its vote is not NEUTRAL. -/
def scoredWindow (klines : List (Int × Kline))
    (w : Int × List SignalRecord) : Bool :=
  (List.lookup w.1 klines).isSome && !(determineVoteVerify w.2 == "NEUTRAL")

/-- The four streak counters of verify_accuracy.py:279-282
(`max_winning_streak`, `max_losing_streak`, `current_winning`,
`current_losing`). -/
structure StreakState where
  maxWin : Nat
  maxLose : Nat
  curWin : Nat
  curLose : Nat
deriving DecidableEq

/-- One iteration of `for r in results_detail:` in
verify_accuracy.py:284-292 (same loop in analyze_48h.py:243-248 and
analyze_24h.py:340-348): a correct entry bumps the current winning run,
zeroes the current losing run and folds the maximum in; a wrong entry
does the symmetric update. -/
def streakStep (st : StreakState) (r : ScoreDetail) : StreakState :=
  if r.correct then
    { maxWin := max st.maxWin (st.curWin + 1)
      maxLose := st.maxLose
      curWin := st.curWin + 1
      curLose := 0 }
  else
    { maxWin := st.maxWin
      maxLose := max st.maxLose (st.curLose + 1)
      curWin := 0
      curLose := st.curLose + 1 }

/-- The whole streak scan of verify_accuracy.py:279-292 over the
chronological detail log, from zeroed counters. -/
def computeStreaks (details : List ScoreDetail) : StreakState :=
  details.foldl streakStep ⟨0, 0, 0, 0⟩

/-- Length of the initial run of `b`s at the head of a boolean list. -/
def leadRun (b : Bool) : List Bool → Nat
  | [] => 0
  | x :: xs => if x = b then leadRun b xs + 1 else 0

/-- Maximum of `leadRun b` over every suffix of a boolean list. -/
def maxLead (b : Bool) : List Bool → Nat
  | [] => 0
  | x :: xs => max (leadRun b (x :: xs)) (maxLead b xs)

/-- Modelled from the spec (§4.5 streak computation): the current run of
value `b` at the end of the chronological prefix `l` — "track
current-win-run and current-loss-run counters". -/
def curRun (b : Bool) (l : List Bool) : Nat :=
  leadRun b l.reverse

/-- Modelled from the spec (§4.5 streak computation): the maximum of the
current run of `b` over all chronological prefixes of `l` — "retain the
maximum value seen for each". Concretely, the maximum over the suffixes
of the reversed log of their leading run of `b`. -/
def bestRun (b : Bool) (l : List Bool) : Nat :=
  maxLead b l.reverse

/-- The guarded per-bucket accuracy rendering of verify_accuracy.py:
260-276 and of the detail sections of analyze_new.py:257-294
(`t = c + w; if t > 0: acc = c / t * 100`, otherwise no percentage is
produced — analyze_new prints "Sin datos"). `none` models the absence of
a rendered percentage. -/
def bucketAccLine (c w : Nat) : Option ℚ :=
  if 0 < c + w then some ((c : ℚ) / ((c : ℚ) + (w : ℚ)) * 100) else none

/-- The historical-comparison rendering of analyze_new.py:308-313 (and
analyze_48h.py:267-270): `correct / max(1, correct + wrong) * 100`,
computed unconditionally for every bucket shown in the table. The value
is always produced, hence always `some`. -/
def comparisonPctLine (c w : Nat) : Option ℚ :=
  some ((c : ℚ) / ((max 1 (c + w) : ℕ) : ℚ) * 100)

/-- Fixture: a signal record with the given signal and recommendation
strings at the given millisecond timestamp (informational numeric columns
zeroed, empty regime). -/
def mkSignal (tsMs : Int) (sig recomm : String) : SignalRecord :=
  ⟨tsMs, sig, recomm, 0, 0, 0, 0, ""⟩

/-- Fixture for C1: an actionable STRONG record at t = 0 ms. -/
def rStrongUp : SignalRecord := mkSignal 0 "BUY UP" "STRONG_EARLY"

/-- Fixture for C1: a non-actionable record at t = 60000 ms, inside the
same 15-minute window `[0, 900000)` as `rStrongUp`. -/
def rWaitDown : SignalRecord := mkSignal 60000 "BUY DOWN" "WAIT"

/-- Fixture for C1: a two-record frame whose single window is active. -/
def dfC1 : List SignalRecord := [rStrongUp, rWaitDown]

/-- Fixture for C3: a record whose signal contains both the "UP" and the
"DOWN" token. -/
def sUpDown : SignalRecord := mkSignal 0 "UPDOWN" ""

/-- Fixture for C10: another record whose signal contains both tokens. -/
def sBothTokens : SignalRecord := mkSignal 0 "XUPDOWNY" ""

/-- Fixture: a plain up record used to instantiate vote theorems. -/
def sBuyUp : SignalRecord := mkSignal 0 "BUY UP" ""

/-- Fixture for C2: a server for which every request raises a transport
exception (`requests.get` itself fails). -/
def errServer : Int → Int → Except Unit HttpResponse :=
  fun _ _ => Except.error ()

/-- Fixture for C2: a server answering every request with a non-success
HTTP response (status 500, no body used). -/
def badStatusServer : Int → Int → Except Unit HttpResponse :=
  fun _ _ => Except.ok ⟨500, []⟩

/-- Fixture for C4: a server with exactly one candle, at window start 0;
any request starting elsewhere returns an empty 200 page. -/
def onePageServer : Int → Int → Except Unit HttpResponse :=
  fun s _ => if s = 0 then Except.ok ⟨200, [⟨0, 1, 2⟩]⟩ else Except.ok ⟨200, []⟩

/-- Fixture for C8: a detail entry with the given correctness flag. -/
def mkDetail (b : Bool) : ScoreDetail := ⟨0, "UP", "UP", b, 1⟩

/-- Fixture for C8: the spec's concrete detail log
`[correct, correct, wrong, correct, correct, correct]`. -/
def exDetailLog : List ScoreDetail :=
  [mkDetail true, mkDetail true, mkDetail false,
   mkDetail true, mkDetail true, mkDetail true]

/-- Unfolding of the aggregation fold over an arbitrary accumulated map:
each key of the result extends the accumulated list with exactly the
actionable rows of the frame that fall in that window, in input order. -/
theorem foldl_groupStep_eq (df : List SignalRecord) :
    ∀ (m : Int → List SignalRecord) (w : Int),
      List.foldl groupStep m df w
        = m w ++ df.filter (fun r => actionableRec r && (w == getWindowStart r.ts)) := by
  induction df with
  | nil => intro m w; simp
  | cons r df ih =>
    intro m w
    rw [List.foldl_cons, ih]
    by_cases ha : actionableRec r
    · by_cases hw : w = getWindowStart r.ts
      · simp [groupStep, ha, List.filter_cons, hw]
      · simp [groupStep, ha, List.filter_cons, hw]
    · simp [groupStep, ha, List.filter_cons]

/-- C1 (counterexample). The claim says that once a window qualifies as
active, ALL of its records — including non-actionable ones — are kept in
the window's list. In the two-record frame `dfC1` both records fall in
window 0 and the window is active (it contains the STRONG record
`rStrongUp`), yet the aggregated list for window 0 is `[rStrongUp]`
alone: the non-actionable record `rWaitDown` was dropped individually,
so filtering is per record, not per window. -/
theorem c1_active_window_drops_nonactionable_record :
    groupSignalsByWindow dfC1 0 = [rStrongUp] ∧
    getWindowStart rStrongUp.ts = 0 ∧
    getWindowStart rWaitDown.ts = 0 ∧
    rWaitDown ∉ groupSignalsByWindow dfC1 0 := by
  decide

/-- C1 (amended). Filtering in `group_signals_by_window` is per record:
for every input frame and window start, the aggregated list for that
window consists of exactly the rows whose recommendation contains
"STRONG" or "GOOD" and whose timestamp falls in that window, in input
order; non-actionable rows of an active window are dropped and therefore
never reach vote counting or bucket scoring. A window appears (i.e. has
a non-empty list) iff it has at least one actionable row. -/
theorem c1_grouping_keeps_exactly_actionable_records
    (df : List SignalRecord) (w : Int) :
    groupSignalsByWindow df w
      = df.filter (fun r => actionableRec r && (w == getWindowStart r.ts)) := by
  unfold groupSignalsByWindow
  rw [foldl_groupStep_eq]
  simp

/-- C5 (confirmed). For every UTC-millisecond timestamp `t` and the fixed
duration 900000 ms, `get_window_start` equals `floor(t / d) * d` in
integer arithmetic (`/` on `Int` is Euclidean division, which is
Python's floor division for a positive divisor), satisfies
`window_start(t) ≤ t < window_start(t) + d`, and is idempotent. -/
theorem c5_window_start_floor_bounds_idempotent (t : Int) :
    getWindowStart t = t / 900000 * 900000 ∧
    getWindowStart t ≤ t ∧
    t < getWindowStart t + 900000 ∧
    getWindowStart (getWindowStart t) = getWindowStart t := by
  unfold getWindowStart
  refine ⟨?_, ?_, ?_, ?_⟩ <;> omega

/-- C6 (confirmed). Every fetched candle is converted to an outcome whose
result is "UP" exactly when close > open and "DOWN" exactly when
close ≤ open — in particular equal open and close prices yield "DOWN" —
and the result is never anything but "UP" or "DOWN". -/
theorem c6_kline_result (k : RawKline) :
    ((klineOfRaw k).result = "UP" ∨ (klineOfRaw k).result = "DOWN") ∧
    ((klineOfRaw k).result = "UP" ↔ k.openPrice < k.closePrice) ∧
    ((klineOfRaw k).result = "DOWN" ↔ k.closePrice ≤ k.openPrice) := by
  simp only [klineOfRaw]
  by_cases h : k.closePrice > k.openPrice
  · rw [if_pos h]
    exact ⟨Or.inl rfl, iff_of_true rfl h, iff_of_false (by decide) (not_le.mpr h)⟩
  · rw [if_neg h]
    exact ⟨Or.inr rfl, iff_of_false (by decide) h,
      iff_of_true rfl (not_lt.mp h)⟩

/-- C6 witness: the candle with open 1 and close 2 is derived as "UP". -/
theorem c6_kline_result_witness :
    (klineOfRaw ⟨0, 1, 2⟩).result = "UP" :=
  (c6_kline_result ⟨0, 1, 2⟩).2.1.mpr (by norm_num)

/-- Closed form of the if/elif counting loop of verify_accuracy.py's
`determine_vote`: starting from `(a, b)` it adds the number of signals
containing "UP" to the first component and the number of signals
containing "DOWN" but not "UP" to the second. -/
theorem foldl_voteStepVerify (l : List SignalRecord) :
    ∀ a b : Nat,
      l.foldl voteStepVerify (a, b)
        = (a + countUpSignals l, b + countDownExclSignals l) := by
  induction l with
  | nil => intro a b; simp [countUpSignals, countDownExclSignals]
  | cons s l ih =>
    intro a b
    rw [List.foldl_cons]
    by_cases hu : strContains s.signal "UP"
    · have h1 : voteStepVerify (a, b) s = (a + 1, b) := by
        simp [voteStepVerify, hu]
      rw [h1, ih]
      simp [countUpSignals, countDownExclSignals, List.countP_cons, hu,
        Prod.mk.injEq]
      omega
    · by_cases hd : strContains s.signal "DOWN"
      · have h1 : voteStepVerify (a, b) s = (a, b + 1) := by
          simp [voteStepVerify, hu, hd]
        rw [h1, ih]
        simp [countUpSignals, countDownExclSignals, List.countP_cons, hu, hd,
          Prod.mk.injEq]
        omega
      · have h1 : voteStepVerify (a, b) s = (a, b) := by
          simp [voteStepVerify, hu, hd]
        rw [h1, ih]
        simp [countUpSignals, countDownExclSignals, List.countP_cons, hu, hd,
          Prod.mk.injEq]

/-- verify_accuracy.py's `determine_vote` is the majority rule applied to
the count of "UP"-containing signals and the count of signals containing
"DOWN" but not "UP" (the `elif` makes the DOWN count exclusive). -/
theorem determineVoteVerify_eq (l : List SignalRecord) :
    determineVoteVerify l
      = specVote (countUpSignals l) (countDownExclSignals l) := by
  unfold determineVoteVerify specVote
  rw [foldl_voteStepVerify]
  simp

/-- analyze_new.py's `determine_vote` is the majority rule applied to the
two independent containment counts. -/
theorem determineVoteNew_eq (l : List SignalRecord) :
    determineVoteNew l
      = specVote (countUpSignals l) (countDownSignals l) := rfl

/-- The majority rule only ever produces "UP", "DOWN" or "NEUTRAL". -/
theorem specVote_mem (u d : Nat) :
    specVote u d = "UP" ∨ specVote u d = "DOWN" ∨ specVote u d = "NEUTRAL" := by
  unfold specVote
  split_ifs <;> simp

/-- The majority rule answers "UP" exactly when the up count wins. -/
theorem specVote_up_iff (u d : Nat) : specVote u d = "UP" ↔ d < u := by
  unfold specVote
  split_ifs with h1 h2
  · exact iff_of_true rfl h1
  · exact iff_of_false (by decide) (by omega)
  · exact iff_of_false (by decide) (by omega)

/-- The majority rule answers "DOWN" exactly when the down count wins. -/
theorem specVote_down_iff (u d : Nat) : specVote u d = "DOWN" ↔ u < d := by
  unfold specVote
  split_ifs with h1 h2
  · exact iff_of_false (by decide) (by omega)
  · exact iff_of_true rfl h2
  · exact iff_of_false (by decide) (by omega)

/-- The majority rule answers "NEUTRAL" exactly on a tie. -/
theorem specVote_neutral_iff (u d : Nat) : specVote u d = "NEUTRAL" ↔ u = d := by
  unfold specVote
  split_ifs with h1 h2
  · exact iff_of_false (by decide) (by omega)
  · exact iff_of_false (by decide) (by omega)
  · exact iff_of_true rfl (by omega)

/-- C3 (counterexample). The claim says the vote resolver returns NEUTRAL
exactly when the count of "UP"-containing signals equals the count of
"DOWN"-containing signals. For the single signal "UPDOWN" both counts
are 1, yet verify_accuracy.py's `determine_vote` (one of the two cited
resolvers) returns "UP": its `elif` never counts a both-token signal as
DOWN. -/
theorem c3_verify_vote_counts_updown_only_up :
    countUpSignals [sUpDown] = 1 ∧ countDownSignals [sUpDown] = 1 ∧
    determineVoteVerify [sUpDown] = "UP" := by
  decide

/-- C3 (amended). analyze_new.py's resolver satisfies the claim exactly
as stated: UP iff the "UP"-containing count exceeds the
"DOWN"-containing count, DOWN in the opposite case, NEUTRAL iff the two
counts are equal. verify_accuracy.py's resolver follows the same
majority rule but with its DOWN count taken over signals containing
"DOWN" and not "UP" (a both-token signal counts only toward UP). Both
resolvers always return one of "UP", "DOWN", "NEUTRAL". -/
theorem c3_vote_resolver_characterization (l : List SignalRecord) :
    (determineVoteNew l = "UP" ↔ countDownSignals l < countUpSignals l) ∧
    (determineVoteNew l = "DOWN" ↔ countUpSignals l < countDownSignals l) ∧
    (determineVoteNew l = "NEUTRAL" ↔ countUpSignals l = countDownSignals l) ∧
    determineVoteVerify l = specVote (countUpSignals l) (countDownExclSignals l) ∧
    (determineVoteVerify l = "UP" ∨ determineVoteVerify l = "DOWN" ∨
      determineVoteVerify l = "NEUTRAL") ∧
    (determineVoteNew l = "UP" ∨ determineVoteNew l = "DOWN" ∨
      determineVoteNew l = "NEUTRAL") := by
  refine ⟨?_, ?_, ?_, ?_, ?_, ?_⟩
  · rw [determineVoteNew_eq]; exact specVote_up_iff _ _
  · rw [determineVoteNew_eq]; exact specVote_down_iff _ _
  · rw [determineVoteNew_eq]; exact specVote_neutral_iff _ _
  · exact determineVoteVerify_eq l
  · rw [determineVoteVerify_eq]; exact specVote_mem _ _
  · rw [determineVoteNew_eq]; exact specVote_mem _ _

/-- C3 witness: on the one-record list with signal "BUY UP" the up count
1 beats the down count 0 and analyze_new.py's resolver answers "UP". -/
theorem c3_vote_resolver_characterization_witness :
    determineVoteNew [sBuyUp] = "UP" :=
  (c3_vote_resolver_characterization [sBuyUp]).1.mpr (by decide)

/-- Under the assumption that no signal contains both tokens, the
exclusive DOWN count of verify_accuracy.py's loop coincides with the
plain DOWN containment count. -/
theorem countDownExcl_eq_countDown :
    ∀ l : List SignalRecord,
      (∀ r ∈ l, (strContains r.signal "UP" && strContains r.signal "DOWN") = false) →
      countDownExclSignals l = countDownSignals l := by
  intro l
  induction l with
  | nil => intro _; rfl
  | cons s l ih =>
    intro h
    unfold countDownExclSignals countDownSignals at ih ⊢
    rw [List.countP_cons, List.countP_cons,
      ih (fun r hr => h r (List.mem_cons_of_mem _ hr))]
    have hs := h s (List.mem_cons_self _ _)
    by_cases hu : strContains s.signal "UP"
    · rw [hu] at hs
      simp only [Bool.true_and] at hs
      simp [hs]
    · simp [hu]

/-- C10 (counterexample). The two `determine_vote` implementations are
not equivalent: on the single signal "XUPDOWNY", which contains both an
UP token and a DOWN token, verify_accuracy.py's if/elif resolver answers
"UP" while analyze_new.py's independent-count resolver answers
"NEUTRAL". -/
theorem c10_vote_resolvers_disagree :
    determineVoteVerify [sBothTokens] = "UP" ∧
    determineVoteNew [sBothTokens] = "NEUTRAL" ∧
    ("UP" : String) ≠ "NEUTRAL" := by
  decide

/-- C10 (amended). The two vote resolvers agree on every signal list in
which no signal contains both an UP token and a DOWN token; only
both-token signals, which verify_accuracy.py counts toward UP alone and
analyze_new.py counts toward both sides, can separate them. -/
theorem c10_resolvers_agree_without_mixed_tokens (l : List SignalRecord)
    (h : ∀ r ∈ l, (strContains r.signal "UP" && strContains r.signal "DOWN") = false) :
    determineVoteVerify l = determineVoteNew l := by
  rw [determineVoteVerify_eq, determineVoteNew_eq,
    countDownExcl_eq_countDown l h]

/-- C10 witness: the one-record list with signal "BUY UP" has no
both-token signal, and the two resolvers indeed agree on it. -/
theorem c10_resolvers_agree_without_mixed_tokens_witness :
    determineVoteVerify [sBuyUp] = determineVoteNew [sBuyUp] :=
  c10_resolvers_agree_without_mixed_tokens [sBuyUp] (by decide)

/-- C2 (counterexample). The claim says a transport failure or
non-success HTTP response is non-fatal for every fetch over a
window-start range, with the fetcher returning the (possibly empty)
partial mapping. On the server whose every request raises a transport
exception, verify_accuracy.py's single-request fetcher produces the
uncaught error, and the pagination loop of the other scripts propagates
the exception as well — no mapping at all, the run aborts; and on the
server answering 500, verify_accuracy.py raises
`Exception("Error Binance: ...")` too. -/
theorem c2_fetch_failure_aborts_run :
    fetchBinanceKlinesVerify errServer 0 900000 = Except.error () ∧
    fetchBinanceKlinesVerify badStatusServer 0 900000 = Except.error () ∧
    fetchLoopNew errServer 900000 1 0 [] [] = Except.error () :=
  ⟨rfl, rfl, rfl⟩

/-- C2 (amended). Only a non-success (non-200) HTTP response is
non-fatal, and only for the paginated fetchers (analyze_new.py,
analyze_48h.py, analyze_24h.py): their loop stops and returns the
mapping accumulated before the failure (possibly empty), so the run
proceeds with partial outcome coverage. A transport failure — a raised
requests exception — propagates uncaught out of the pagination loop and
aborts the run; verify_accuracy.py's single-request fetcher propagates
transport failures too and additionally raises on a non-success
response. -/
theorem c2_nonsuccess_nonfatal_transport_fatal :
    (∀ (server : Int → Int → Except Unit HttpResponse)
        (endTime current : Int) (fuel : Nat) (acc : List (Int × Kline))
        (log : List (Int × Int)) (resp : HttpResponse),
      current < endTime →
      server current (min (current + 900000000) endTime) = Except.ok resp →
      resp.statusCode ≠ 200 →
      fetchLoopNew server endTime (fuel + 1) current acc log
        = Except.ok (acc, log ++ [(current, min (current + 900000000) endTime)])) ∧
    (∀ (server : Int → Int → Except Unit HttpResponse)
        (endTime current : Int) (fuel : Nat) (acc : List (Int × Kline))
        (log : List (Int × Int)) (e : Unit),
      current < endTime →
      server current (min (current + 900000000) endTime) = Except.error e →
      fetchLoopNew server endTime (fuel + 1) current acc log
        = Except.error e) ∧
    (∀ (server : Int → Int → Except Unit HttpResponse) (s e : Int)
        (err : Unit),
      server s e = Except.error err →
      fetchBinanceKlinesVerify server s e = Except.error err) ∧
    (∀ (server : Int → Int → Except Unit HttpResponse) (s e : Int)
        (resp : HttpResponse),
      server s e = Except.ok resp →
      resp.statusCode ≠ 200 →
      fetchBinanceKlinesVerify server s e = Except.error ()) := by
  refine ⟨?_, ?_, ?_, ?_⟩
  · intro server endTime current fuel acc log resp hlt hsrv h200
    simp only [fetchLoopNew]
    rw [if_pos hlt, hsrv]
    simp [h200]
  · intro server endTime current fuel acc log e hlt hsrv
    simp only [fetchLoopNew]
    rw [if_pos hlt, hsrv]
  · intro server s e err h
    unfold fetchBinanceKlinesVerify
    rw [h]
  · intro server s e resp h h200
    simp [fetchBinanceKlinesVerify, h, h200]

/-- C2 witness: on the 500-answering server the pagination loop returns
the empty partial mapping after its first request, on the
exception-raising server it propagates the error, and
verify_accuracy.py's fetcher errors on both servers. -/
theorem c2_nonsuccess_nonfatal_transport_fatal_witness :
    fetchLoopNew badStatusServer 900000 1 0 [] []
      = Except.ok ([], [(0, min (0 + 900000000) 900000)]) ∧
    fetchLoopNew errServer 900000 1 0 [] [] = Except.error () ∧
    fetchBinanceKlinesVerify errServer 0 900000 = Except.error () ∧
    fetchBinanceKlinesVerify badStatusServer 0 900000 = Except.error () :=
  ⟨c2_nonsuccess_nonfatal_transport_fatal.1 badStatusServer 900000 0 0 [] []
      ⟨500, []⟩ (by decide) rfl (by decide),
    c2_nonsuccess_nonfatal_transport_fatal.2.1 errServer 900000 0 0 [] [] ()
      (by decide) rfl,
    c2_nonsuccess_nonfatal_transport_fatal.2.2.1 errServer 0 900000 () rfl,
    c2_nonsuccess_nonfatal_transport_fatal.2.2.2 badStatusServer 0 900000
      ⟨500, []⟩ rfl (by decide)⟩

/-- C4 (counterexample). The claim says the next request's start is
1 + the maximum window start fetched so far. On a server whose only
candle has window start 0, the ghost request log of the pagination loop
shows the second request starting at 900000 = max + window duration, not
at 1 = 1 + max; the partial mapping holds exactly the one fetched
candle. -/
theorem c4_next_request_start_not_one_plus_max :
    fetchBinanceKlinesNew onePageServer 5 0 1800000
      = Except.ok ([(0, klineOfRaw ⟨0, 1, 2⟩)],
          [(0, 1800000), (900000, 1800000)]) ∧
    (900000 : Int) ≠ 0 + 1 := by
  refine ⟨rfl, by decide⟩

/-- C4 (amended). During pagination, after each non-empty successful
page the next request's start is the maximum window start fetched so far
plus the window duration (900000 ms); paging continues until the
requested end is reached or a page returns empty or errors (the
non-success-response stop is the first part of the C2 theorem), at which
point the loop stops and the partial mapping accumulated so far is
returned. -/
theorem c4_pagination_step_and_stop :
    (∀ (server : Int → Int → Except Unit HttpResponse)
        (endTime current : Int) (fuel : Nat) (acc : List (Int × Kline))
        (log : List (Int × Int)) (resp : HttpResponse),
      current < endTime →
      server current (min (current + 900000000) endTime) = Except.ok resp →
      resp.statusCode = 200 →
      resp.data ≠ [] →
      fetchLoopNew server endTime (fuel + 1) current acc log
        = fetchLoopNew server endTime fuel
            (maxKey (insertPage acc resp.data) + 900000)
            (insertPage acc resp.data)
            (log ++ [(current, min (current + 900000000) endTime)])) ∧
    (∀ (server : Int → Int → Except Unit HttpResponse)
        (endTime current : Int) (fuel : Nat) (acc : List (Int × Kline))
        (log : List (Int × Int)),
      current < endTime →
      server current (min (current + 900000000) endTime)
        = Except.ok ⟨200, []⟩ →
      fetchLoopNew server endTime (fuel + 1) current acc log
        = Except.ok (acc, log ++ [(current, min (current + 900000000) endTime)])) ∧
    (∀ (server : Int → Int → Except Unit HttpResponse)
        (endTime current : Int) (fuel : Nat) (acc : List (Int × Kline))
        (log : List (Int × Int)),
      endTime ≤ current →
      fetchLoopNew server endTime (fuel + 1) current acc log
        = Except.ok (acc, log)) := by
  refine ⟨?_, ?_, ?_⟩
  · intro server endTime current fuel acc log resp hlt hsrv h200 hne
    simp only [fetchLoopNew]
    rw [if_pos hlt, hsrv]
    cases hd : resp.data with
    | nil => exact absurd hd hne
    | cons k ks => simp [h200, hd]
  · intro server endTime current fuel acc log hlt hsrv
    simp only [fetchLoopNew]
    rw [if_pos hlt, hsrv]
    rfl
  · intro server endTime current fuel acc log hle
    simp only [fetchLoopNew]
    rw [if_neg (not_lt.mpr hle)]

/-- C4 witness: on the one-candle server, one loop iteration from start 0
performs the documented step — it inserts the page and resumes at
0 + 900000. -/
theorem c4_pagination_step_and_stop_witness :
    fetchLoopNew onePageServer 900001 1 0 [] []
      = fetchLoopNew onePageServer 900001 0
          (maxKey (insertPage [] [⟨0, 1, 2⟩]) + 900000)
          (insertPage [] [⟨0, 1, 2⟩])
          ([] ++ [(0, min (0 + 900000000) 900001)]) :=
  c4_pagination_step_and_stop.1 onePageServer 900001 0 0 [] []
    ⟨200, [⟨0, 1, 2⟩]⟩ (by decide) rfl rfl (by decide)

/-- A window whose outcome is missing from the fetched dictionary or
whose vote is NEUTRAL leaves the scoring state untouched: it contributes
to no counter and to no detail entry. -/
theorem scoreStepVerify_skip (klines : List (Int × Kline)) (st : ScoreState)
    (w : Int × List SignalRecord) (h : scoredWindow klines w = false) :
    scoreStepVerify klines st w = st := by
  unfold scoredWindow at h
  unfold scoreStepVerify
  cases hl : List.lookup w.1 klines with
  | none => rfl
  | some kl =>
    rw [hl] at h
    simp only [Option.isSome_some, Bool.true_and, Bool.not_eq_false',
      beq_iff_eq] at h
    simp [h]

/-- A window with a known outcome and a non-NEUTRAL vote bumps `total` by
exactly one and exactly one of `correct`/`wrong` by one. -/
theorem scoreStepVerify_score (klines : List (Int × Kline)) (st : ScoreState)
    (w : Int × List SignalRecord) (h : scoredWindow klines w = true) :
    (scoreStepVerify klines st w).total = st.total + 1 ∧
    (scoreStepVerify klines st w).correct + (scoreStepVerify klines st w).wrong
      = st.correct + st.wrong + 1 := by
  unfold scoredWindow at h
  unfold scoreStepVerify
  cases hl : List.lookup w.1 klines with
  | none => rw [hl] at h; simp at h
  | some kl =>
    rw [hl] at h
    simp only [Option.isSome_some, Bool.true_and, Bool.not_eq_true',
      beq_eq_false_iff_ne, ne_eq] at h
    refine ⟨by simp [h], ?_⟩
    simp [h]
    by_cases hok : determineVoteVerify w.2 = kl.result <;> simp [hok] <;> omega

/-- Counter part of the verification loop: over any window list the
`total` counter grows by exactly the number of windows with a known
outcome and a non-NEUTRAL vote, and `correct + wrong` grows by the same
number. -/
theorem scoreRun_counts_aux (klines : List (Int × Kline))
    (ws : List (Int × List SignalRecord)) :
    ∀ st : ScoreState,
      (ws.foldl (scoreStepVerify klines) st).total
        = st.total + ws.countP (scoredWindow klines) ∧
      (ws.foldl (scoreStepVerify klines) st).correct
          + (ws.foldl (scoreStepVerify klines) st).wrong
        = st.correct + st.wrong + ws.countP (scoredWindow klines) := by
  induction ws with
  | nil => intro st; simp
  | cons w ws ih =>
    intro st
    rw [List.foldl_cons]
    by_cases hq : scoredWindow klines w = true
    · rcases scoreStepVerify_score klines st w hq with ⟨h1, h2⟩
      rcases ih (scoreStepVerify klines st w) with ⟨ih1, ih2⟩
      refine ⟨?_, ?_⟩
      · rw [ih1, h1, List.countP_cons]
        simp [hq]
        omega
      · rw [ih2, h2, List.countP_cons]
        simp [hq]
        omega
    · have hq' : scoredWindow klines w = false := by simpa using hq
      rw [scoreStepVerify_skip klines st w hq']
      rcases ih st with ⟨ih1, ih2⟩
      refine ⟨?_, ?_⟩
      · rw [ih1, List.countP_cons]
        simp [hq']
      · rw [ih2, List.countP_cons]
        simp [hq']

/-- Skipped windows are invisible to the whole loop: folding over a
window list equals folding over its scored sublist. -/
theorem scoreRun_filter_aux (klines : List (Int × Kline))
    (ws : List (Int × List SignalRecord)) :
    ∀ st : ScoreState,
      ws.foldl (scoreStepVerify klines) st
        = (ws.filter (scoredWindow klines)).foldl (scoreStepVerify klines) st := by
  induction ws with
  | nil => intro st; rfl
  | cons w ws ih =>
    intro st
    rw [List.foldl_cons, List.filter_cons]
    by_cases hq : scoredWindow klines w = true
    · rw [if_pos hq, List.foldl_cons]
      exact ih _
    · have hq' : scoredWindow klines w = false := by simpa using hq
      rw [if_neg hq, scoreStepVerify_skip klines st w hq']
      exact ih st

/-- C7 (confirmed). In the verification loop, `correct + wrong` always
equals the `total` counter, `total` equals the number of processed
windows that have both a known outcome in the fetched dictionary and a
non-NEUTRAL resolved vote (each such window contributes exactly one
increment), and the whole run is unchanged when windows with a missing
outcome or a NEUTRAL vote are removed — those windows contribute to no
bucket at all. -/
theorem c7_total_scored_iff_outcome_and_vote (klines : List (Int × Kline))
    (ws : List (Int × List SignalRecord)) :
    (scoreRunVerify klines ws).correct + (scoreRunVerify klines ws).wrong
      = (scoreRunVerify klines ws).total ∧
    (scoreRunVerify klines ws).total = ws.countP (scoredWindow klines) ∧
    scoreRunVerify klines ws
      = scoreRunVerify klines (ws.filter (scoredWindow klines)) := by
  unfold scoreRunVerify
  rcases scoreRun_counts_aux klines ws ⟨0, 0, 0, []⟩ with ⟨h1, h2⟩
  simp only [ScoreState.mk.injEq] at h1 h2
  simp at h1 h2
  refine ⟨?_, ?_, scoreRun_filter_aux klines ws _⟩
  · omega
  · omega

/-- Appending one entry to the chronological log updates the current run:
it grows by one if the entry continues the run, otherwise it resets to
zero. -/
theorem curRun_concat (b x : Bool) (l : List Bool) :
    curRun b (l ++ [x]) = if x = b then curRun b l + 1 else 0 := by
  unfold curRun
  rw [List.reverse_append]
  simp [leadRun]

/-- Appending one entry to the chronological log updates the retained
maximum: it is the larger of the new current run and the previous
maximum. -/
theorem bestRun_concat (b x : Bool) (l : List Bool) :
    bestRun b (l ++ [x]) = max (curRun b (l ++ [x])) (bestRun b l) := by
  unfold bestRun curRun
  rw [List.reverse_append]
  simp [maxLead]

/-- The streak fold of the scripts computes, at every point, exactly the
spec-side quantities: the retained maxima are the maxima of the current
run over all chronological prefixes, and the running counters are the
current runs themselves. -/
theorem computeStreaks_eq (details : List ScoreDetail) :
    computeStreaks details
      = ⟨bestRun true (details.map ScoreDetail.correct),
         bestRun false (details.map ScoreDetail.correct),
         curRun true (details.map ScoreDetail.correct),
         curRun false (details.map ScoreDetail.correct)⟩ := by
  induction details using List.reverseRecOn with
  | nil => rfl
  | append_singleton l d ih =>
    have hfold : computeStreaks (l ++ [d]) = streakStep (computeStreaks l) d := by
      unfold computeStreaks
      rw [List.foldl_append]
      rfl
    rw [hfold, ih, List.map_append]
    by_cases hc : d.correct
    · simp [streakStep, hc, curRun_concat, bestRun_concat, Nat.max_comm]
    · simp [streakStep, hc, curRun_concat, bestRun_concat, Nat.max_comm]

/-- C8 (confirmed). The streak statistic computed by the single
chronological scan — incrementing the current-win counter and zeroing
the current-loss counter on each correct entry and symmetrically on each
wrong entry, retaining the maximum of each — equals the maximum of the
current run over all chronological prefixes of the detail log, for wins
and losses alike; and on the concrete detail log
`[correct, correct, wrong, correct, correct, correct]` the best winning
streak is 3 and the worst losing streak is 1. -/
theorem c8_streaks_max_over_prefixes (details : List ScoreDetail) :
    (computeStreaks details).maxWin
        = bestRun true (details.map ScoreDetail.correct) ∧
    (computeStreaks details).maxLose
        = bestRun false (details.map ScoreDetail.correct) ∧
    (computeStreaks exDetailLog).maxWin = 3 ∧
    (computeStreaks exDetailLog).maxLose = 1 := by
  refine ⟨?_, ?_, by decide, by decide⟩
  · rw [computeStreaks_eq]
  · rw [computeStreaks_eq]

/-- C9 (counterexample). The claim says an accuracy percentage is
computed only when a bucket's total is strictly positive and that a
zero-total bucket is reported as having no data. The
historical-comparison table of analyze_new.py:308-313 (within the cited
lines 300-314) computes `correct / max(1, total) * 100` unconditionally:
for a bucket with zero correct and zero wrong — total zero — it renders
the percentage 0, not a no-data marker. The guarded per-bucket renderer
does yield no percentage there, shown for contrast. -/
theorem c9_comparison_renders_pct_at_zero_total :
    comparisonPctLine 0 0 = some 0 ∧ bucketAccLine 0 0 = none := by
  constructor
  · unfold comparisonPctLine
    norm_num
  · rfl

/-- C9 (amended). The guarded per-bucket renderers produce a percentage
exactly when the bucket's total is strictly positive (a zero-total
bucket yields no percentage, i.e. is reported as having no data), while
the historical-comparison renderer always produces a value but divides
by `max(1, total)`, whose positivity rules out division by zero in every
rendering path. -/
theorem c9_bucket_accuracy_guards (c w : Nat) :
    ((bucketAccLine c w).isSome = true ↔ 0 < c + w) ∧
    (comparisonPctLine c w).isSome = true ∧
    0 < max 1 (c + w) := by
  refine ⟨?_, rfl, by omega⟩
  unfold bucketAccLine
  by_cases h : 0 < c + w
  · rw [if_pos h]
    exact iff_of_true rfl h
  · rw [if_neg h]
    exact iff_of_false (by simp) h

/-- C9 witness: a bucket with two correct and one wrong entries has a
positive total and the guarded renderer produces a percentage for it. -/
theorem c9_bucket_accuracy_guards_witness :
    (bucketAccLine 2 1).isSome = true :=
  (c9_bucket_accuracy_guards 2 1).1.mpr (by decide)
